import Mathlib

/-!
Shallow embedding of the workflow-orchestration core of the multi-agent
development system: the base-agent execution wrapper
(`backend/app/agents/base.py`) and the LangGraph workflow manager
(`backend/app/orchestrator/workflow.py`).

Python dictionaries that the orchestrator inspects are modelled by the
structure `PyDict`, which records exactly the projections the orchestrator
reads (`next_action`, `implementation_plan`, `revision_required`,
`quality_issues`); `has_other_keys` stands for the presence of any further
key, so that dictionary truthiness (`if d:`) is expressible.  A Python value
that may be `None` or a dict is `Option PyDict` (`none` = Python `None`,
`some d` with `d.truthy = false` = the empty dict `{}`).  Python floats that
only flow through additions/divisions (timestamps, execution times) are
modelled as `ℚ`; Python ints as `Int`/`Nat`.
-/

namespace Spec2Proof

/-- One entry of the `tasks` list inside `plan_data["implementation_plan"]`.
The orchestrator only reads and writes the `status` key; `description`
stands for the remaining task payload. -/
structure Task where
  status : String := "pending"
  description : String := ""
deriving DecidableEq

/-- `plan_data.get("implementation_plan", {})` — the orchestrator reads only
its `tasks` list. -/
structure ImplPlan where
  tasks : List Task := []
deriving DecidableEq

/-- A stage payload dictionary, restricted to the keys the orchestrator
inspects.  `has_other_keys` records whether any key outside the modelled
ones is present (it only matters for truthiness). -/
structure PyDict where
  next_action : Option String := none
  implementation_plan : Option ImplPlan := none
  revision_required : Bool := false
  quality_issues : List String := []
  has_other_keys : Bool := false
deriving DecidableEq

/-- Python truthiness of the dictionary: non-empty iff it has some key. -/
def PyDict.truthy (d : PyDict) : Bool :=
  d.next_action.isSome || d.implementation_plan.isSome || d.revision_required ||
    !d.quality_issues.isEmpty || d.has_other_keys

/-- Truthiness of a `None`-or-dict Python value (`if x:`). -/
def dictTruthy : Option PyDict → Bool
  | none => false
  | some d => d.truthy

/-- `x.get("next_action")` on a dict; the orchestrator only evaluates it
under a truthiness guard (`x and x.get(...)`), so the `none` branch is
never consulted by the routing conditions. -/
def getNextAction : Option PyDict → Option String
  | none => none
  | some d => d.next_action

/-- Python `f"...{x}"` on an `Optional[str]`: `None` prints as `"None"`. -/
def pyStr : Option String → String
  | none => "None"
  | some s => s

/-! ## Base agent (`backend/app/agents/base.py`) -/

/-- `AgentStatus` enum. -/
inductive AgentStatus
  | idle
  | processing
  | completed
  | error
  | timeout
deriving DecidableEq

/-- `.value` of the `AgentStatus` enum. -/
def AgentStatus.value : AgentStatus → String
  | .idle => "idle"
  | .processing => "processing"
  | .completed => "completed"
  | .error => "error"
  | .timeout => "timeout"

/-- `AgentResult` dataclass: result structure for agent operations.
`data : Any = None` is modelled as the `None`-or-dict payload the
orchestrator consumes. -/
structure AgentResult where
  success : Bool
  data : Option PyDict := none
  error : Option String := none
  execution_time : ℚ := 0
  tokens_used : Int := 0
deriving DecidableEq

/-- `AgentMessage` dataclass (`metadata: Dict[str, Any] = None` modelled as
an optional association list). -/
structure AgentMessage where
  id : String
  sender : String
  recipient : String
  content : String
  message_type : String
  timestamp : ℚ
  metadata : Option (List (String × String)) := none
deriving DecidableEq

/-- The `execution_stats` dictionary of `BaseAgent`. -/
structure ExecutionStats where
  total_executions : Nat := 0
  total_time : ℚ := 0
  total_tokens : Int := 0
  success_count : Nat := 0
  error_count : Nat := 0
deriving DecidableEq

/-- Outcome of awaiting `self.process(input_data, context)`: a normal
return, an `asyncio.TimeoutError`, or any other exception `e` carrying its
string representation `str(e)` (which may be the empty string, e.g.
`str(ValueError())`). -/
inductive ProcessOutcome
  | ok (r : AgentResult)
  | timedOut
  | raised (msg : String)
deriving DecidableEq

/-- `BaseAgent.execute`: wraps `process` with error handling and stats
tracking.  `elapsed` is the wall-clock duration `time.time() - start_time`.
Returns the `AgentResult` handed to the caller together with the updated
`execution_stats` and `self.status`.  Note that the two exception branches
increment only `error_count` (not `total_executions`). -/
def BaseAgent.execute (elapsed : ℚ) (outcome : ProcessOutcome) (st : ExecutionStats) :
    AgentResult × ExecutionStats × AgentStatus :=
  match outcome with
  | .ok r =>
      let r := { r with execution_time := elapsed }
      let st := { st with
        total_executions := st.total_executions + 1
        total_time := st.total_time + elapsed
        total_tokens := st.total_tokens + r.tokens_used }
      if r.success then
        (r, { st with success_count := st.success_count + 1 }, .completed)
      else
        (r, { st with error_count := st.error_count + 1 }, .error)
  | .timedOut =>
      ({ success := false, error := some "Execution timed out", execution_time := elapsed },
        { st with error_count := st.error_count + 1 }, .timeout)
  | .raised msg =>
      ({ success := false, error := some msg, execution_time := elapsed },
        { st with error_count := st.error_count + 1 }, .error)

/-- `BaseAgent.add_message`: append to `message_history`, then, to keep the
history size manageable, truncate to the last 50 entries (`[-50:]`) whenever
the length exceeds 100. -/
def BaseAgent.add_message (history : List AgentMessage) (m : AgentMessage) :
    List AgentMessage :=
  if (history ++ [m]).length > 100 then
    (history ++ [m]).drop ((history ++ [m]).length - 50)
  else history ++ [m]

/-- The dictionary returned by `BaseAgent.get_stats`: a copy of
`execution_stats` updated with derived fields. -/
structure AgentStatsReport where
  total_executions : Nat
  total_time : ℚ
  total_tokens : Int
  success_count : Nat
  error_count : Nat
  name : String
  status : String
  message_count : Nat
  average_execution_time : ℚ
  success_rate : ℚ
deriving DecidableEq

/-- `BaseAgent.get_stats`. -/
def BaseAgent.get_stats (name : String) (status : AgentStatus)
    (history : List AgentMessage) (st : ExecutionStats) : AgentStatsReport :=
  { total_executions := st.total_executions
    total_time := st.total_time
    total_tokens := st.total_tokens
    success_count := st.success_count
    error_count := st.error_count
    name := name
    status := status.value
    message_count := history.length
    average_execution_time :=
      if st.total_executions > 0 then st.total_time / (st.total_executions : ℚ) else 0
    success_rate :=
      if st.total_executions > 0 then (st.success_count : ℚ) / (st.total_executions : ℚ) else 0 }

/-! ## Workflow orchestrator (`backend/app/orchestrator/workflow.py`) -/

/-- `WorkflowStatus` enum. -/
inductive WorkflowStatus
  | pending
  | running
  | completed
  | failed
  | timeout
deriving DecidableEq

/-- `.value` of the `WorkflowStatus` enum. -/
def WorkflowStatus.value : WorkflowStatus → String
  | .pending => "pending"
  | .running => "running"
  | .completed => "completed"
  | .failed => "failed"
  | .timeout => "timeout"

/-- The spec's notion of a terminal status (`Completed`, `Failed`,
`TimedOut`); used to state capacity-claim properties, the source never
computes it. -/
def WorkflowStatus.isTerminal : WorkflowStatus → Bool
  | .completed => true
  | .failed => true
  | .timeout => true
  | _ => false

/-- The `implementation_data` dictionary: starts empty and only ever gains
the keys written by the code/review nodes. -/
structure ImplData where
  all_tasks_complete : Bool := false
  revision_required : Bool := false
  quality_issues : List String := []
  implementations : List (Option PyDict) := []
  review_status : Option String := none
deriving DecidableEq

/-- `WorkflowState` dataclass after `__post_init__` (the dict/list fields
default to empty containers, `started_at` to the creation time). -/
structure WorkflowState where
  workflow_id : String
  user_request : String
  current_step : String
  status : WorkflowStatus
  requirements_data : Option PyDict := some {}
  plan_data : Option PyDict := some {}
  implementation_data : ImplData := {}
  started_at : ℚ := 0
  completed_at : Option ℚ := none
  total_tokens_used : Int := 0
  errors : List String := []
deriving DecidableEq

/-- Index of the first task with `status == "pending"` in the plan's task
list (the search loop at the top of `_code_node`). -/
def firstPendingIdx (tasks : List Task) : Option Nat :=
  tasks.findIdx? (fun t => t.status == "pending")

/-- `pending_task["status"] = "completed"`: the in-place mutation of the
task dict inside the plan's task list. -/
def setTaskCompleted : List Task → Nat → List Task
  | [], _ => []
  | t :: ts, 0 => { t with status := "completed" } :: ts
  | t :: ts, i + 1 => t :: setTaskCompleted ts i

/-- `result.data and result.data.get("revision_required")` in `_code_node`. -/
def dataRevisionRequired : Option PyDict → Bool
  | none => false
  | some d => d.truthy && d.revision_required

/-- `result.data.get("quality_issues", [])` (only evaluated when the data
dict is truthy). -/
def dataQualityIssues : Option PyDict → List String
  | none => []
  | some d => d.quality_issues

/-- `_qa_intake_node`, with `r` the `AgentResult` returned by
`self.agents["qa_intake"].execute(input_data)`.  The input fed to the agent
(initial request vs. follow-up responses) only affects the agent, which is
external to the embedding (here an oracle), so its construction is not
modelled. -/
def qa_intake_node (r : AgentResult) (s : WorkflowState) : WorkflowState :=
  let s := { s with current_step := "qa_intake" }
  if r.success then
    { s with
        requirements_data := r.data
        total_tokens_used := s.total_tokens_used + r.tokens_used }
  else
    { s with
        errors := s.errors ++ ["QA Intake failed: " ++ pyStr r.error]
        status := .failed }

/-- `_manager_node`, with `r` the result of the manager agent. -/
def manager_node (r : AgentResult) (s : WorkflowState) : WorkflowState :=
  let s := { s with current_step := "manager" }
  if r.success then
    { s with
        plan_data := r.data
        total_tokens_used := s.total_tokens_used + r.tokens_used }
  else
    { s with
        errors := s.errors ++ ["Manager failed: " ++ pyStr r.error]
        status := .failed }

/-- `_code_node`, with `r` the result of the code agent (consumed only when
a pending task exists).  When `plan_data` is Python `None`,
`state.plan_data.get(...)` raises `AttributeError`, which the node's
`except Exception` branch converts into an error entry plus status
`FAILED`. -/
def code_node (r : AgentResult) (s : WorkflowState) : WorkflowState :=
  let s := { s with current_step := "code" }
  match s.plan_data with
  | none =>
      { s with
          errors := s.errors ++ ["Code error: 'NoneType' object has no attribute 'get'"]
          status := .failed }
  | some pd =>
      let plan := pd.implementation_plan.getD {}
      let tasks := plan.tasks
      match firstPendingIdx tasks with
      | none =>
          { s with
              implementation_data := { s.implementation_data with all_tasks_complete := true } }
      | some i =>
          if r.success then
            { s with
                implementation_data := { s.implementation_data with
                  implementations := s.implementation_data.implementations ++ [r.data] }
                total_tokens_used := s.total_tokens_used + r.tokens_used
                plan_data := some { pd with
                  implementation_plan := some { plan with tasks := setTaskCompleted tasks i } } }
          else
            let s := { s with
              errors := s.errors ++ ["Code generation failed: " ++ pyStr r.error] }
            if dataRevisionRequired r.data then
              { s with
                  implementation_data := { s.implementation_data with
                    revision_required := true
                    quality_issues := dataQualityIssues r.data } }
            else
              { s with status := .failed }

/-- `_review_node` (invokes no agent); `clock` is the value of
`time.time()` at the approval point. -/
def review_node (clock : ℚ) (s : WorkflowState) : WorkflowState :=
  let s := { s with current_step := "review" }
  match s.plan_data with
  | none =>
      { s with
          errors := s.errors ++ ["Review error: 'NoneType' object has no attribute 'get'"]
          status := .failed }
  | some pd =>
      let tasks := (pd.implementation_plan.getD {}).tasks
      let completed_tasks := tasks.filter (fun t => t.status == "completed")
      if completed_tasks.length == tasks.length && tasks.length > 0 then
        { s with
            implementation_data := { s.implementation_data with review_status := some "approved" }
            status := .completed
            completed_at := some clock }
      else
        { s with
            implementation_data :=
              { s.implementation_data with review_status := some "continue_implementation" } }

/-- `_qa_routing_condition`. -/
def qa_routing_condition (s : WorkflowState) : String :=
  if s.status = .failed then "error"
  else if dictTruthy s.requirements_data &&
      (getNextAction s.requirements_data == some "proceed_to_planning") then
    "proceed_to_planning"
  else if dictTruthy s.requirements_data &&
      (getNextAction s.requirements_data == some "await_user_responses") then
    "continue_qa"
  else "error"

/-- `_manager_routing_condition`. -/
def manager_routing_condition (s : WorkflowState) : String :=
  if s.status = .failed then "error"
  else if dictTruthy s.plan_data &&
      (getNextAction s.plan_data == some "begin_implementation") then
    "proceed_to_code"
  else "error"

/-- `_code_routing_condition`. -/
def code_routing_condition (s : WorkflowState) : String :=
  if s.status = .failed then "error"
  else if s.implementation_data.revision_required then "revise_code"
  else if s.implementation_data.all_tasks_complete then "complete"
  else "proceed_to_review"

/-- `_review_routing_condition`. -/
def review_routing_condition (s : WorkflowState) : String :=
  if s.implementation_data.review_status == some "approved" then "approve"
  else if s.implementation_data.review_status == some "continue_implementation" then
    "request_revision"
  else "back_to_planning"

/-- The graph's nodes (`workflow.add_node` calls in
`_build_workflow_graph`). -/
inductive Node
  | qa_intake
  | manager
  | code
  | review
deriving DecidableEq

/-- Target of a conditional edge: another node or `END`. -/
inductive NextTarget
  | node (n : Node)
  | END
deriving DecidableEq

/-- The conditional-edge mappings registered by `_build_workflow_graph`
(label → target, per source node); `none` for a label outside the mapping
(which the graph library would reject at runtime). -/
def routeTarget : Node → String → Option NextTarget
  | .qa_intake, "continue_qa" => some (.node .qa_intake)
  | .qa_intake, "proceed_to_planning" => some (.node .manager)
  | .qa_intake, "error" => some .END
  | .manager, "proceed_to_code" => some (.node .code)
  | .manager, "revise_plan" => some (.node .manager)
  | .manager, "error" => some .END
  | .code, "proceed_to_review" => some (.node .review)
  | .code, "revise_code" => some (.node .code)
  | .code, "complete" => some .END
  | .code, "error" => some .END
  | .review, "approve" => some .END
  | .review, "request_revision" => some (.node .code)
  | .review, "back_to_planning" => some (.node .manager)
  | _, _ => none

/-- The routing function attached to each node's conditional edges. -/
def routeLabel : Node → WorkflowState → String
  | .qa_intake, s => qa_routing_condition s
  | .manager, s => manager_routing_condition s
  | .code, s => code_routing_condition s
  | .review, s => review_routing_condition s

/-- Whether executing the code node on `s` invokes the code agent: it does
not when `plan_data` is `None` (the dict access raises first) nor when no
pending task remains (the node returns before `execute`). -/
def codeNodeConsumes (s : WorkflowState) : Bool :=
  match s.plan_data with
  | none => false
  | some pd => (firstPendingIdx (pd.implementation_plan.getD {}).tasks).isSome

/-- One node execution.  `oracle k` is the `AgentResult` produced by the
`k`-th agent invocation of this workflow run (agents are external to the
core); the returned counter is the next invocation index. -/
def runNode (oracle : Nat → AgentResult) (clock : ℚ) (n : Node) (s : WorkflowState)
    (k : Nat) : WorkflowState × Nat :=
  match n with
  | .qa_intake => (qa_intake_node (oracle k) s, k + 1)
  | .manager => (manager_node (oracle k) s, k + 1)
  | .code => (code_node (oracle k) s, if codeNodeConsumes s then k + 1 else k)
  | .review => (review_node clock s, k)

/-- Result of driving the compiled graph: `finished` when an edge reaches
`END`, `exhausted` when the step budget (the graph library's recursion
limit) runs out first, which surfaces to `_execute_workflow` as a raised
exception. -/
inductive RunResult
  | finished (s : WorkflowState) (k : Nat)
  | exhausted (s : WorkflowState) (k : Nat)
deriving DecidableEq

/-- The final state carried by a `RunResult`. -/
def RunResult.state : RunResult → WorkflowState
  | .finished s _ => s
  | .exhausted s _ => s

/-- Driving the compiled graph from node `n`: execute the node, evaluate
its routing condition, follow the conditional-edge mapping, and repeat
until `END` or until the step budget is exhausted.  An unmapped routing
label (impossible for the four routing conditions) is also surfaced as an
execution fault. -/
def runGraph (oracle : Nat → AgentResult) (clock : ℚ) :
    Nat → Node → WorkflowState → Nat → RunResult
  | 0, _, s, k => .exhausted s k
  | fuel + 1, n, s, k =>
      let sk := runNode oracle clock n s k
      match routeTarget n (routeLabel n sk.1) with
      | some (.node n') => runGraph oracle clock fuel n' sk.1 sk.2
      | some .END => .finished sk.1 sk.2
      | none => .exhausted sk.1 sk.2

/-- `_execute_workflow`: mark the state `RUNNING`, invoke the graph from
the entry point, then — unless the final state is already `FAILED` — force
status `COMPLETED` and stamp `completed_at`.  An exception out of the graph
invocation (here: budget exhaustion, i.e. the recursion limit) is caught,
appended to `errors` and forces `FAILED`. -/
def execute_workflow (oracle : Nat → AgentResult) (clock : ℚ) (fuel : Nat)
    (s0 : WorkflowState) : WorkflowState :=
  let s := { s0 with status := .running }
  match runGraph oracle clock fuel .qa_intake s 0 with
  | .finished f _ =>
      if f.status ≠ .failed then { f with status := .completed, completed_at := some clock }
      else f
  | .exhausted f _ =>
      { f with
          status := .failed
          errors := f.errors ++ ["Execution error: graph recursion limit reached"] }

/-! ## Workflow registry (`start_workflow`) -/

/-- The `active_workflows` map, as an insertion-ordered association list. -/
abbrev Registry := List (String × WorkflowState)

/-- `settings.MAX_CONCURRENT_WORKFLOWS` (`backend/app/core/config.py`). -/
def MAX_CONCURRENT_WORKFLOWS : Nat := 5

/-- The fresh `Pending` record built by `start_workflow`. -/
def newPendingState (workflow_id user_request : String) (clock : ℚ) : WorkflowState :=
  { workflow_id := workflow_id
    user_request := user_request
    current_step := "pending"
    status := .pending
    started_at := clock }

/-- `start_workflow`: reject with a capacity error when
`len(self.active_workflows) >= self.max_concurrent_workflows`, otherwise
register a fresh `Pending` record under the new id (the background
scheduling of `_execute_workflow` is not part of the registry mutation). -/
def start_workflow (reg : Registry) (max_concurrent : Nat) (new_id user_request : String)
    (clock : ℚ) : Except String (Registry × String) :=
  if max_concurrent ≤ reg.length then
    .error ("Maximum concurrent workflows (" ++ toString max_concurrent ++ ") reached")
  else
    .ok (reg ++ [(new_id, newPendingState new_id user_request clock)], new_id)

/-- The registry as left by a `start_workflow` call (a raised capacity
error leaves it untouched). -/
def registryAfterStart (reg : Registry) (max_concurrent : Nat) (new_id user_request : String)
    (clock : ℚ) : Registry :=
  match start_workflow reg max_concurrent new_id user_request clock with
  | .error _ => reg
  | .ok p => p.1

/-- The spec's live (non-terminal) workflow count, used to state the
capacity claim; the source's check does not compute it. -/
def liveNonTerminalCount (reg : Registry) : Nat :=
  (reg.filter (fun p => !p.2.status.isTerminal)).length

/-! ## Snapshot semantics of `WorkflowState.to_dict` / `get_workflow_status`

`get_workflow_status` returns `state.to_dict()`, and `to_dict` is built on
`dataclasses.asdict`, which deep-copies every nested container.  To make the
copy-vs-alias distinction expressible, this section models the mutable
containers of a stored record explicitly: a `Store` maps addresses to
container objects, a stored record (`WorkflowStateRef`) holds the addresses
of its three payload dicts and its error list, and `to_dict` allocates
fresh addresses for the copies it returns.  Nested payload containers are
modelled one level deep (flat dicts / a flat list), which is where the
aliasing question lives. -/

/-- A heap container object: a (flat) string dictionary or a string list. -/
inductive HObj
  | dict (entries : List (String × String))
  | list (items : List String)
deriving DecidableEq

/-- The object store: address → object, plus the next fresh address. -/
structure Store where
  mem : List (Nat × HObj) := []
  next : Nat := 0
deriving DecidableEq

/-- Read the object at an address. -/
def Store.get (σ : Store) (a : Nat) : Option HObj :=
  (σ.mem.find? (fun p => p.1 == a)).map (fun p => p.2)

/-- Mutate the object at an address in place (e.g. `d[k] = v`,
`l.append(x)` on the container living there). -/
def Store.set (σ : Store) (a : Nat) (o : HObj) : Store :=
  { σ with mem := σ.mem.map (fun p => if p.1 == a then (a, o) else p) }

/-- Allocate a fresh object, returning the new store and its address. -/
def Store.alloc (σ : Store) (o : HObj) : Store × Nat :=
  ({ mem := σ.mem ++ [(σ.next, o)], next := σ.next + 1 }, σ.next)

/-- A stored `WorkflowState` with its mutable containers held by
reference into the store. -/
structure WorkflowStateRef where
  workflow_id : String
  user_request : String
  current_step : String
  status : WorkflowStatus
  requirements_data : Nat
  plan_data : Nat
  implementation_data : Nat
  started_at : ℚ
  completed_at : Option ℚ
  total_tokens_used : Int
  errors : Nat
deriving DecidableEq

/-- The addresses of the record's mutable containers. -/
def WorkflowStateRef.addrs (st : WorkflowStateRef) : List Nat :=
  [st.requirements_data, st.plan_data, st.implementation_data, st.errors]

/-- The dictionary returned by `to_dict`: scalar fields copied by value,
`status` replaced by `self.status.value`, container fields pointing at the
fresh copies made by `asdict`. -/
structure SnapshotDict where
  workflow_id : String
  user_request : String
  current_step : String
  status : String
  requirements_data : Nat
  plan_data : Nat
  implementation_data : Nat
  started_at : ℚ
  completed_at : Option ℚ
  total_tokens_used : Int
  errors : Nat
deriving DecidableEq

/-- The addresses of the snapshot's containers. -/
def SnapshotDict.addrs (d : SnapshotDict) : List Nat :=
  [d.requirements_data, d.plan_data, d.implementation_data, d.errors]

/-- `WorkflowState.to_dict`: `asdict(self)` deep-copies the three payload
dictionaries and the error list into fresh objects, then the `status` entry
is overwritten with the enum's `.value`. -/
def WorkflowStateRef.to_dict (σ : Store) (st : WorkflowStateRef) : Store × SnapshotDict :=
  let req := (σ.get st.requirements_data).getD (.dict [])
  let plan := (σ.get st.plan_data).getD (.dict [])
  let impl := (σ.get st.implementation_data).getD (.dict [])
  let errs := (σ.get st.errors).getD (.list [])
  let p1 := σ.alloc req
  let p2 := p1.1.alloc plan
  let p3 := p2.1.alloc impl
  let p4 := p3.1.alloc errs
  (p4.1,
    { workflow_id := st.workflow_id
      user_request := st.user_request
      current_step := st.current_step
      status := st.status.value
      requirements_data := p1.2
      plan_data := p2.2
      implementation_data := p3.2
      started_at := st.started_at
      completed_at := st.completed_at
      total_tokens_used := st.total_tokens_used
      errors := p4.2 })

/-- `get_workflow_status`: look the id up in `active_workflows` and return
`state.to_dict()` (or `None` for an unknown id). -/
def get_workflow_status (σ : Store) (active_workflows : List (String × WorkflowStateRef))
    (workflow_id : String) : Option (Store × SnapshotDict) :=
  match active_workflows.find? (fun p => p.1 == workflow_id) with
  | none => none
  | some p => some (p.2.to_dict σ)

/-! ## Concrete fixtures used by the theorems below -/

/-- A freshly started workflow record (the state `start_workflow` registers
before scheduling `_execute_workflow`). -/
def init0 : WorkflowState := newPendingState "wf-1" "build a calculator" 0

/-- Intake payload steering the workflow to the planner. -/
def qaProceedData : PyDict := { next_action := some "proceed_to_planning" }

/-- A successful intake result carrying `qaProceedData`. -/
def qaProceedResult : AgentResult := { success := true, data := some qaProceedData }

/-- An intake result whose `next_action` value is recognized by no routing
branch. -/
def qaGarbageResult : AgentResult :=
  { success := true, data := some { next_action := some "deploy_rocket" } }

/-- An intake oracle that always reports the unrecognized action. -/
def oracleGarbage : Nat → AgentResult := fun _ => qaGarbageResult

/-- An intake oracle whose stage always fails outright. -/
def oracleFailQA : Nat → AgentResult :=
  fun _ => { success := false, error := some "model unavailable" }

/-- A manager payload: `begin_implementation` with a one-task plan. -/
def planOneTask : PyDict :=
  { next_action := some "begin_implementation"
    implementation_plan := some { tasks := [{ status := "pending", description := "write calculator" }] } }

/-- A successful manager result carrying `planOneTask`. -/
def managerPlanResult : AgentResult := { success := true, data := some planOneTask }

/-- The payload of a failed code-generation attempt demanding revision. -/
def reviseData : PyDict := { revision_required := true, quality_issues := ["needs tests"] }

/-- A code-agent result that fails with `revision_required`. -/
def reviseResult : AgentResult :=
  { success := false, data := some reviseData, error := some "quality check failed" }

/-- A successful code-agent result (non-empty payload dict). -/
def codeSuccessResult : AgentResult := { success := true, data := some { has_other_keys := true } }

/-- Oracle for the unbounded-revision run: intake proceeds, the manager
plans one task, and every code attempt demands revision. -/
def oracleRevise : Nat → AgentResult
  | 0 => qaProceedResult
  | 1 => managerPlanResult
  | _ + 2 => reviseResult

/-- Oracle for the nominal run: intake proceeds, the manager plans one
task, the code agent succeeds. -/
def oracleHappy : Nat → AgentResult
  | 0 => qaProceedResult
  | 1 => managerPlanResult
  | _ + 2 => codeSuccessResult

/-- The error entry appended by a failed code attempt. -/
def codeFailMsg : String := "Code generation failed: quality check failed"

/-- The error entry appended when the graph invocation raises. -/
def execErrMsg : String := "Execution error: graph recursion limit reached"

/-- The workflow state circulating in the revision loop: every pass through
the code node reproduces it except for one more `codeFailMsg` entry. -/
def sLoop (es : List String) : WorkflowState :=
  { workflow_id := "wf-1"
    user_request := "build a calculator"
    current_step := "code"
    status := .running
    requirements_data := some qaProceedData
    plan_data := some planOneTask
    implementation_data := { revision_required := true, quality_issues := ["needs tests"] }
    started_at := 0
    completed_at := none
    total_tokens_used := 0
    errors := es }

/-- A one-task plan whose single task is already completed. -/
def planDone : PyDict :=
  { next_action := some "begin_implementation"
    implementation_plan := some { tasks := [{ status := "completed", description := "write calculator" }] } }

/-- A running workflow entering the code stage with an exhausted task
list. -/
def sAllDone : WorkflowState :=
  { workflow_id := "wf-2"
    user_request := "build a calculator"
    current_step := "review"
    status := .running
    requirements_data := some qaProceedData
    plan_data := some planDone }

/-- A running workflow entering the code stage with one pending task. -/
def sPend : WorkflowState :=
  { workflow_id := "wf-3"
    user_request := "build a calculator"
    current_step := "manager"
    status := .running
    requirements_data := some qaProceedData
    plan_data := some planOneTask }

/-- A registry holding one terminal (completed) workflow. -/
def regOneDone : Registry :=
  [("wf-9", { newPendingState "wf-9" "finished request" 0 with status := .completed })]

/-- An agent result reporting a negative token count (nothing in the source
constrains `tokens_used` to be non-negative). -/
def negTokResult : AgentResult := { success := true, data := some {}, tokens_used := -7 }

/-- Oracle that always returns `negTokResult`. -/
def oracleNeg : Nat → AgentResult := fun _ => negTokResult

/-- A concrete agent message. -/
def msg0 : AgentMessage :=
  { id := "m0", sender := "qa_intake", recipient := "manager", content := "hello"
    message_type := "info", timestamp := 0 }

/-- Stats of an agent after two executions, one successful. -/
def stPos : ExecutionStats :=
  { total_executions := 2, total_time := 3, total_tokens := 40, success_count := 1, error_count := 1 }

/-- A store holding the four containers of one workflow record. -/
def storeW : Store :=
  { mem := [(0, .dict [("goal", "demo")]), (1, .dict []), (2, .dict []), (3, .list ["oops"])]
    next := 4 }

/-- A stored record whose containers live at addresses 0–3 of `storeW`. -/
def stateRefW : WorkflowStateRef :=
  { workflow_id := "wf-8", user_request := "demo", current_step := "review"
    status := .completed, requirements_data := 0, plan_data := 1, implementation_data := 2
    started_at := 0, completed_at := some 1, total_tokens_used := 5, errors := 3 }

/-- A registry holding `stateRefW`. -/
def regW : List (String × WorkflowStateRef) := [("wf-8", stateRefW)]

/-! ## Theorems -/

/-- C1: an Intake result with `success=true` but an unrecognized
`next_action` resolves the routing condition to its `error` branch, yet the
workflow settles in terminal status `Completed`, not `Failed`: the code
contradicts the spec's routing-fault policy (the `error` edge reaches `END`
without setting `FAILED`, and `_execute_workflow` stamps every non-`FAILED`
final state `COMPLETED`). -/
theorem unrecognized_next_action_completes :
    qa_routing_condition (qa_intake_node (oracleGarbage 0) { init0 with status := .running }) =
      "error" ∧
    (execute_workflow oracleGarbage 0 25 init0).status = .completed ∧
    (execute_workflow oracleGarbage 0 25 init0).status ≠ .failed := by
  refine ⟨rfl, rfl, by decide⟩

/-- C3 counterexample: a registry holding exactly one workflow, which is
already terminal (`Completed`), still rejects a new start at
`max_concurrent_workflows = 1` although the live, non-terminal count is 0:
the capacity check counts every registered entry, terminal or not. -/
theorem capacity_counts_terminal_entries :
    liveNonTerminalCount regOneDone = 0 ∧
    start_workflow regOneDone 1 "wf-10" "new request" 0 =
      .error "Maximum concurrent workflows (1) reached" := by
  exact ⟨rfl, rfl⟩

/-- C3 amended: `start_workflow` rejects with a capacity error exactly when
the total number of registered workflows (terminal entries included) has
reached `max_concurrent_workflows`; a rejected start leaves the registry
unchanged, and an accepted start appends exactly one fresh `Pending`
record. -/
theorem start_workflow_capacity (reg : Registry) (maxc : Nat) (new_id user_request : String)
    (clock : ℚ) :
    ((∃ e, start_workflow reg maxc new_id user_request clock = .error e) ↔ maxc ≤ reg.length) ∧
    (maxc ≤ reg.length →
      registryAfterStart reg maxc new_id user_request clock = reg) ∧
    (reg.length < maxc →
      start_workflow reg maxc new_id user_request clock =
        .ok (reg ++ [(new_id, newPendingState new_id user_request clock)], new_id)) := by
  unfold start_workflow registryAfterStart
  by_cases h : maxc ≤ reg.length
  · simp [h, start_workflow]
  · simp [h, start_workflow]

/-- C3 witness: the rejected start on `regOneDone` leaves the registry
unchanged, and a start below the ceiling registers the fresh record. -/
theorem start_workflow_capacity_witness :
    registryAfterStart regOneDone 1 "wf-10" "new request" 0 = regOneDone ∧
    start_workflow ([] : Registry) 5 "wf-0" "first" 0 =
      .ok ([("wf-0", newPendingState "wf-0" "first" 0)], "wf-0") := by
  exact ⟨(start_workflow_capacity regOneDone 1 "wf-10" "new request" 0).2.1 (by decide),
    (start_workflow_capacity [] 5 "wf-0" "first" 0).2.2 (by decide)⟩

/-- C5 counterexample: a workflow whose intake stage fails settles in
terminal status `Failed` with `completed_at` still unset — only the
`Completed` settle stamps the timestamp. -/
theorem failed_settle_leaves_completed_at_none :
    (execute_workflow oracleFailQA 0 25 init0).status = .failed ∧
    (execute_workflow oracleFailQA 0 25 init0).completed_at = none := by
  exact ⟨rfl, rfl⟩

/-- C5 amended: every execution that settles `Completed` has `completed_at`
stamped; a `Failed` settle may leave it unset (see the counterexample). -/
theorem completed_settle_stamps_completed_at (oracle : Nat → AgentResult) (clock : ℚ)
    (fuel : Nat) (s0 : WorkflowState)
    (h : (execute_workflow oracle clock fuel s0).status = .completed) :
    (execute_workflow oracle clock fuel s0).completed_at.isSome = true := by
  have key : execute_workflow oracle clock fuel s0 =
      (match runGraph oracle clock fuel .qa_intake { s0 with status := .running } 0 with
        | RunResult.finished f _ =>
            if f.status ≠ WorkflowStatus.failed then
              { f with status := .completed, completed_at := some clock }
            else f
        | RunResult.exhausted f _ =>
            { f with status := .failed, errors := f.errors ++ [execErrMsg] }) := rfl
  rw [key] at h ⊢
  cases hr : runGraph oracle clock fuel .qa_intake { s0 with status := .running } 0 with
  | finished f k =>
      rw [hr] at h
      by_cases hf : f.status = WorkflowStatus.failed
      · simp [hf] at h
      · simp [hf]
  | exhausted f k =>
      rw [hr] at h
      simp at h

/-- C5 witness: the nominal one-task run settles `Completed` and carries a
stamped `completed_at`. -/
theorem completed_settle_stamps_completed_at_witness :
    (execute_workflow oracleHappy 0 25 init0).status = .completed ∧
    (execute_workflow oracleHappy 0 25 init0).completed_at.isSome = true := by
  exact ⟨rfl, completed_settle_stamps_completed_at oracleHappy 0 25 init0 rfl⟩

/-- C6 counterexample: when the wrapped `process` raises an exception whose
string representation is empty (e.g. `ValueError()`), `execute` returns
`success=false` with the empty error string — not a non-empty one. -/
theorem execute_error_string_can_be_empty :
    (BaseAgent.execute 1 (.raised "") {}).1.success = false ∧
    (BaseAgent.execute 1 (.raised "") {}).1.error = some "" := by
  exact ⟨rfl, rfl⟩

/-- C6 amended: `execute` never propagates the fault: on a timeout it
returns `success=false` with the fixed (non-empty) message
`"Execution timed out"`, and on any other exception it returns
`success=false` with the exception's string representation — non-empty
exactly when that representation is. -/
theorem execute_converts_exceptions (elapsed : ℚ) (outcome : ProcessOutcome)
    (st : ExecutionStats) :
    (outcome = .timedOut →
      (BaseAgent.execute elapsed outcome st).1.success = false ∧
      (BaseAgent.execute elapsed outcome st).1.error = some "Execution timed out") ∧
    (∀ msg, outcome = .raised msg →
      (BaseAgent.execute elapsed outcome st).1.success = false ∧
      (BaseAgent.execute elapsed outcome st).1.error = some msg) := by
  cases outcome <;> simp [BaseAgent.execute]

/-- C6 witness: the two exception shapes at concrete inputs. -/
theorem execute_converts_exceptions_witness :
    (BaseAgent.execute 1 .timedOut {}).1.error = some "Execution timed out" ∧
    (BaseAgent.execute 1 (.raised "boom") {}).1.error = some "boom" := by
  exact ⟨((execute_converts_exceptions 1 .timedOut {}).1 rfl).2,
    ((execute_converts_exceptions 1 (.raised "boom") {}).2 "boom" rfl).2⟩

/-- C7 counterexample: an agent result with a negative `tokens_used` makes
a node execution (and a whole run) decrease `total_tokens_used`; nothing in
the source constrains the field, so the counter is not monotone for
arbitrary stage results. -/
theorem tokens_counter_can_decrease :
    ({ init0 with status := WorkflowStatus.running }).total_tokens_used = 0 ∧
    (qa_intake_node negTokResult { init0 with status := .running }).total_tokens_used = -7 ∧
    (execute_workflow oracleNeg 0 25 init0).total_tokens_used = -7 := by
  exact ⟨rfl, rfl, rfl⟩

/-- C9: after any `add_message` call the history never exceeds 100 entries,
and whenever the append would exceed 100 the history is cut to exactly the
50 most recent messages in order (a suffix of length 50). -/
theorem add_message_bounds_history (history : List AgentMessage) (m : AgentMessage) :
    (BaseAgent.add_message history m).length ≤ 100 ∧
    (100 < (history ++ [m]).length →
      (BaseAgent.add_message history m).length = 50 ∧
      List.IsSuffix (BaseAgent.add_message history m) (history ++ [m])) := by
  unfold BaseAgent.add_message
  by_cases hl : (history ++ [m]).length > 100
  · rw [if_pos hl]
    refine ⟨?_, fun _ => ⟨?_, List.drop_suffix _ _⟩⟩
    · rw [List.length_drop]; omega
    · rw [List.length_drop]; omega
  · rw [if_neg hl]
    exact ⟨by omega, fun hc => absurd hc hl⟩

/-- C9 witness: appending to a history of 100 messages truncates to 50. -/
theorem add_message_bounds_history_witness :
    100 < (List.replicate 100 msg0 ++ [msg0]).length ∧
    (BaseAgent.add_message (List.replicate 100 msg0) msg0).length = 50 := by
  exact ⟨by simp, ((add_message_bounds_history (List.replicate 100 msg0) msg0).2 (by simp)).1⟩

/-- C10: `get_stats` is total: with zero executions the derived averages
are reported as 0 instead of dividing by zero, and with a positive count
they are the exact quotients. -/
theorem get_stats_guards_division (name : String) (status : AgentStatus)
    (history : List AgentMessage) (st : ExecutionStats) :
    (st.total_executions = 0 →
      (BaseAgent.get_stats name status history st).average_execution_time = 0 ∧
      (BaseAgent.get_stats name status history st).success_rate = 0) ∧
    (0 < st.total_executions →
      (BaseAgent.get_stats name status history st).average_execution_time =
        st.total_time / (st.total_executions : ℚ) ∧
      (BaseAgent.get_stats name status history st).success_rate =
        (st.success_count : ℚ) / (st.total_executions : ℚ)) := by
  constructor <;> intro h <;> simp [BaseAgent.get_stats, h]

/-- C10 witness: the zero-execution report and a concrete 1-of-2 success
rate. -/
theorem get_stats_guards_division_witness :
    (BaseAgent.get_stats "qa_intake" .idle [] {}).average_execution_time = 0 ∧
    (BaseAgent.get_stats "qa_intake" .idle [] stPos).success_rate = (1 : ℚ) / 2 := by
  refine ⟨((get_stats_guards_division "qa_intake" .idle [] {}).1 rfl).1, ?_⟩
  rw [((get_stats_guards_division "qa_intake" .idle [] stPos).2 (by decide)).2]
  norm_num [stPos]

/-- C4 counterexample: entering the code stage with an exhausted task list
marks `all_tasks_complete`, the routing condition yields `"complete"`, and
the graph maps that label to `END` — the workflow ends directly instead of
advancing to the review node. -/
theorem task_exhaustion_ends_directly :
    code_routing_condition (code_node codeSuccessResult sAllDone) = "complete" ∧
    routeTarget .code (code_routing_condition (code_node codeSuccessResult sAllDone)) =
      some .END ∧
    runGraph (fun _ => codeSuccessResult) 0 1 .code sAllDone 0 =
      .finished (code_node codeSuccessResult sAllDone) 0 := by
  exact ⟨rfl, rfl, rfl⟩

/-- C4 amended: in the Implementer (code) stage with a clean revision flag
and a non-failed status, an exhausted task list routes to `"complete"`
(ending the workflow at `END` directly, not via the Reviewer), while the
Reviewer stage is reached through `"proceed_to_review"` after each single
successful task implementation. -/
theorem code_routing_on_task_state (r : AgentResult) (s : WorkflowState) (pd : PyDict)
    (hpd : s.plan_data = some pd) (hst : s.status ≠ .failed)
    (hrev : s.implementation_data.revision_required = false)
    (hall : s.implementation_data.all_tasks_complete = false) :
    (firstPendingIdx (pd.implementation_plan.getD {}).tasks = none →
      code_routing_condition (code_node r s) = "complete" ∧
      routeTarget .code (code_routing_condition (code_node r s)) = some .END) ∧
    (∀ i, firstPendingIdx (pd.implementation_plan.getD {}).tasks = some i → r.success = true →
      code_routing_condition (code_node r s) = "proceed_to_review" ∧
      routeTarget .code (code_routing_condition (code_node r s)) = some (.node .review)) := by
  constructor
  · intro hfp
    have e1 : code_routing_condition (code_node r s) = "complete" := by
      simp [code_node, hpd, hfp, code_routing_condition, hst, hrev]
    exact ⟨e1, by rw [e1]; rfl⟩
  · intro i hfp hsucc
    have e2 : code_routing_condition (code_node r s) = "proceed_to_review" := by
      simp [code_node, hpd, hfp, hsucc, code_routing_condition, hst, hrev, hall]
    exact ⟨e2, by rw [e2]; rfl⟩

/-- C4 witness: the exhausted plan ends at `END`; the one-pending-task plan
advances to the review node. -/
theorem code_routing_on_task_state_witness :
    routeTarget .code (code_routing_condition (code_node codeSuccessResult sAllDone)) =
      some .END ∧
    routeTarget .code (code_routing_condition (code_node codeSuccessResult sPend)) =
      some (.node .review) := by
  exact
    ⟨((code_routing_on_task_state codeSuccessResult sAllDone planDone rfl (by decide) rfl
        rfl).1 rfl).2,
      ((code_routing_on_task_state codeSuccessResult sPend planOneTask rfl (by decide) rfl
        rfl).2 0 rfl rfl).2⟩

/-- Helper: one node execution never lowers the token counter when the
consumed result reports non-negative usage. -/
theorem runNode_tokens_mono (oracle : Nat → AgentResult)
    (h : ∀ j, 0 ≤ (oracle j).tokens_used) (clock : ℚ) (n : Node) (s : WorkflowState)
    (k : Nat) : s.total_tokens_used ≤ (runNode oracle clock n s k).1.total_tokens_used := by
  have hk := h k
  cases n
  case qa_intake =>
    unfold runNode qa_intake_node
    split_ifs <;> simp <;> omega
  case manager =>
    unfold runNode manager_node
    split_ifs <;> simp <;> omega
  case code =>
    unfold runNode code_node
    dsimp only
    split
    · simp
    · split
      · simp
      · split_ifs <;> simp <;> omega
  case review =>
    unfold runNode review_node
    dsimp only
    split
    · simp
    · split_ifs <;> simp

/-- Helper: driving the graph never lowers the token counter when every
oracle result reports non-negative usage. -/
theorem runGraph_tokens_mono (oracle : Nat → AgentResult)
    (h : ∀ j, 0 ≤ (oracle j).tokens_used) (clock : ℚ) :
    ∀ (fuel : Nat) (n : Node) (s : WorkflowState) (k : Nat),
      s.total_tokens_used ≤ ((runGraph oracle clock fuel n s k).state).total_tokens_used := by
  intro fuel
  induction fuel with
  | zero => intro n s k; simp [runGraph, RunResult.state]
  | succ m ih =>
      intro n s k
      have h1 := runNode_tokens_mono oracle h clock n s k
      simp only [runGraph]
      cases hrt : routeTarget n (routeLabel n (runNode oracle clock n s k).1) with
      | none => simpa [RunResult.state] using h1
      | some tgt =>
          cases tgt with
          | node n' =>
              exact le_trans h1 (ih n' (runNode oracle clock n s k).1 (runNode oracle clock n s k).2)
          | END => simpa [RunResult.state] using h1

/-- C7 amended: `total_tokens_used` is monotonically non-decreasing over a
workflow run provided every stage result reports a non-negative
`tokens_used` (the counter is only ever increased by that field, which the
source leaves unconstrained — see the counterexample for negative usage). -/
theorem tokens_monotone_with_nonneg_usage (oracle : Nat → AgentResult)
    (h : ∀ j, 0 ≤ (oracle j).tokens_used) (clock : ℚ) (fuel : Nat) (n : Node)
    (s : WorkflowState) (k : Nat) (s0 : WorkflowState) :
    s.total_tokens_used ≤ (runGraph oracle clock fuel n s k).state.total_tokens_used ∧
    s0.total_tokens_used ≤ (execute_workflow oracle clock fuel s0).total_tokens_used := by
  refine ⟨runGraph_tokens_mono oracle h clock fuel n s k, ?_⟩
  have hg := runGraph_tokens_mono oracle h clock fuel .qa_intake { s0 with status := .running } 0
  have key : execute_workflow oracle clock fuel s0 =
      (match runGraph oracle clock fuel .qa_intake { s0 with status := .running } 0 with
        | RunResult.finished f _ =>
            if f.status ≠ WorkflowStatus.failed then
              { f with status := .completed, completed_at := some clock }
            else f
        | RunResult.exhausted f _ =>
            { f with status := .failed, errors := f.errors ++ [execErrMsg] }) := rfl
  rw [key]
  cases hr : runGraph oracle clock fuel .qa_intake { s0 with status := .running } 0 with
  | finished f k2 =>
      rw [hr] at hg
      simp only [RunResult.state] at hg
      dsimp only
      split_ifs <;> simpa using hg
  | exhausted f k2 =>
      rw [hr] at hg
      simp only [RunResult.state] at hg
      dsimp only
      simpa using hg

/-- C7 witness: a run whose oracle reports zero usage never lowers the
counter. -/
theorem tokens_monotone_witness :
    init0.total_tokens_used ≤
      (execute_workflow (fun _ => qaProceedResult) 0 3 init0).total_tokens_used := by
  exact (tokens_monotone_with_nonneg_usage (fun _ => qaProceedResult)
    (fun _ => by show (0 : Int) ≤ 0; decide) 0 3 .qa_intake init0 0 init0).2

/-- Helper: once the run is in the revision loop, every unit of budget is
spent on one more pass through the code node, which reproduces the same
state except for one more `codeFailMsg` error entry; the loop never leaves
the code node and never fails on its own. -/
theorem runGraph_revise_loop (fuel : Nat) :
    ∀ (k : Nat) (es : List String),
      runGraph oracleRevise 0 fuel .code (sLoop es) (k + 2) =
        .exhausted (sLoop (es ++ List.replicate fuel codeFailMsg)) (k + 2 + fuel) := by
  induction fuel with
  | zero => intro k es; simp [runGraph]
  | succ m ih =>
      intro k es
      have hstep : runGraph oracleRevise 0 (m + 1) .code (sLoop es) (k + 2) =
          runGraph oracleRevise 0 m .code (sLoop (es ++ [codeFailMsg])) ((k + 1) + 2) := rfl
      have hlist : (es ++ [codeFailMsg]) ++ List.replicate m codeFailMsg =
          es ++ List.replicate (m + 1) codeFailMsg := by
        simp [List.replicate_succ]
      rw [hstep, ih (k + 1) (es ++ [codeFailMsg]), hlist]
      simp only [RunResult.exhausted.injEq]
      exact ⟨by trivial, by omega⟩

/-- C2: the retry edges are not governed by any per-stage retry counter: an
implementer that keeps demanding revision re-enters the code stage once per
unit of budget, for every budget at least 3 the run is still in the code
stage when the budget runs out, the workflow fails only through the generic
graph-limit execution error, and no error entry ever equals
`retry_limit_exceeded`. -/
theorem revision_loop_unbounded (fuel : Nat) (h : 3 ≤ fuel) :
    (execute_workflow oracleRevise 0 fuel init0).errors.all
        (fun e => e != "retry_limit_exceeded") = true ∧
    (execute_workflow oracleRevise 0 fuel init0).current_step = "code" ∧
    (execute_workflow oracleRevise 0 fuel init0).status = .failed := by
  obtain ⟨m, rfl⟩ : ∃ m, fuel = m + 3 := ⟨fuel - 3, by omega⟩
  have hrun : runGraph oracleRevise 0 (m + 3) .qa_intake { init0 with status := .running } 0 =
      .exhausted (sLoop ([codeFailMsg] ++ List.replicate m codeFailMsg)) (1 + 2 + m) := by
    have h3 : runGraph oracleRevise 0 (m + 3) .qa_intake { init0 with status := .running } 0 =
        runGraph oracleRevise 0 m .code (sLoop [codeFailMsg]) (1 + 2) := rfl
    rw [h3, runGraph_revise_loop m 1 [codeFailMsg]]
  have key : execute_workflow oracleRevise 0 (m + 3) init0 =
      { sLoop ([codeFailMsg] ++ List.replicate m codeFailMsg) with
          status := .failed
          errors := ([codeFailMsg] ++ List.replicate m codeFailMsg) ++ [execErrMsg] } := by
    have k2 : execute_workflow oracleRevise 0 (m + 3) init0 =
        (match runGraph oracleRevise 0 (m + 3) .qa_intake { init0 with status := .running } 0 with
          | RunResult.finished f _ =>
              if f.status ≠ WorkflowStatus.failed then
                { f with status := .completed, completed_at := some (0 : ℚ) }
              else f
          | RunResult.exhausted f _ =>
              { f with status := .failed, errors := f.errors ++ [execErrMsg] }) := rfl
    rw [k2, hrun]
    rfl
  rw [key]
  refine ⟨?_, rfl, rfl⟩
  rw [List.all_eq_true]
  intro e he
  simp only [List.mem_append, List.mem_singleton, List.mem_replicate] at he
  obtain (rfl | ⟨-, rfl⟩) | rfl := he <;> decide

/-- C2 witness: at budget 5 the revision run is still in the code stage,
fails only through the generic execution error, and records no
`retry_limit_exceeded` entry. -/
theorem revision_loop_unbounded_witness :
    3 ≤ 5 ∧ (execute_workflow oracleRevise 0 5 init0).status = .failed ∧
    (execute_workflow oracleRevise 0 5 init0).errors.all
      (fun e => e != "retry_limit_exceeded") = true := by
  exact ⟨by decide, (revision_loop_unbounded 5 (by decide)).2.2,
    (revision_loop_unbounded 5 (by decide)).1⟩

/-- Helper: updating the object at address `a` leaves lookups at any other
address unchanged. -/
theorem find?_map_set_ne (mem : List (Nat × HObj)) (a b : Nat) (o : HObj) (h : a ≠ b) :
    (mem.map (fun p => if p.1 == a then (a, o) else p)).find? (fun p => p.1 == b) =
      mem.find? (fun p => p.1 == b) := by
  induction mem with
  | nil => rfl
  | cons q qs ih =>
      by_cases hqa : q.1 = a
      · rw [List.map_cons, if_pos (show (q.1 == a) = true by simp [hqa]),
          List.find?_cons_of_neg _ (by simp [h]),
          List.find?_cons_of_neg _ (by simp [hqa, h])]
        exact ih
      · rw [List.map_cons, if_neg (show ¬(q.1 == a) = true by simp [hqa])]
        by_cases hqb : q.1 = b
        · rw [List.find?_cons_of_pos _ (by simp [hqb]),
            List.find?_cons_of_pos _ (by simp [hqb])]
        · rw [List.find?_cons_of_neg _ (by simp [hqb]),
            List.find?_cons_of_neg _ (by simp [hqb])]
          exact ih

/-- Helper: `Store.set` at one address is invisible at every other
address. -/
theorem Store.get_set_ne (σ : Store) (a b : Nat) (o : HObj) (h : a ≠ b) :
    (σ.set a o).get b = σ.get b := by
  simp only [Store.set, Store.get]
  rw [find?_map_set_ne σ.mem a b o h]

/-- Helper: a well-formed memory (all keys below `n`) has no entry at or
above `n`. -/
theorem find?_eq_none_of_keys_lt (mem : List (Nat × HObj)) (n : Nat)
    (hwf : ∀ p ∈ mem, p.1 < n) (b : Nat) (hb : n ≤ b) :
    mem.find? (fun p => p.1 == b) = none := by
  induction mem with
  | nil => rfl
  | cons q qs ih =>
      have hq := hwf q (by simp)
      rw [List.find?_cons_of_neg _ (by simp; omega)]
      exact ih (fun p hp => hwf p (by simp [hp]))

/-- Helper: allocation is invisible at every pre-existing address. -/
theorem Store.get_alloc_lt (σ : Store) (o : HObj) (b : Nat) (hb : b ≠ σ.next) :
    (σ.alloc o).1.get b = σ.get b := by
  simp only [Store.alloc, Store.get]
  rw [List.find?_append]
  have h2 : ([(σ.next, o)].find? (fun p => p.1 == b)) = none := by
    rw [List.find?_cons_of_neg _ (by simp [Ne.symm hb])]
    rfl
  rw [h2, Option.or_none]

/-- Helper: the freshly allocated address reads back the allocated
object (given a well-formed store). -/
theorem Store.get_alloc_self (σ : Store) (o : HObj)
    (hwf : ∀ p ∈ σ.mem, p.1 < σ.next) :
    (σ.alloc o).1.get σ.next = some o := by
  simp only [Store.alloc, Store.get]
  rw [List.find?_append, find?_eq_none_of_keys_lt σ.mem σ.next hwf σ.next (le_refl _),
    List.find?_cons_of_pos _ (by simp)]
  rfl

/-- Helper: allocation preserves store well-formedness. -/
theorem Store.alloc_wf (σ : Store) (o : HObj) (hwf : ∀ p ∈ σ.mem, p.1 < σ.next) :
    ∀ p ∈ (σ.alloc o).1.mem, p.1 < (σ.alloc o).1.next := by
  intro p hp
  simp only [Store.alloc] at hp ⊢
  rcases List.mem_append.mp hp with h1 | h2
  · exact lt_trans (hwf p h1) (Nat.lt_succ_self _)
  · simp at h2
    rw [h2]
    simp

/-- C8: `get_workflow_status` returns `state.to_dict()`, whose containers
are fresh copies: their addresses are disjoint from the stored record's
addresses, so a write into any container of the stored record is invisible
through the snapshot and a write into any container of the snapshot is
invisible through the stored record, while at snapshot time the copies
read back exactly the record's container contents. -/
theorem snapshot_is_deep_copy (σ : Store) (reg : List (String × WorkflowStateRef))
    (id wid : String) (st : WorkflowStateRef)
    (hfind : reg.find? (fun p => p.1 == id) = some (wid, st))
    (hwf : ∀ p ∈ σ.mem, p.1 < σ.next)
    (hst : ∀ a ∈ st.addrs, a < σ.next) :
    get_workflow_status σ reg id = some (st.to_dict σ) ∧
    (∀ a ∈ (st.to_dict σ).2.addrs, a ∉ st.addrs) ∧
    (∀ a ∈ st.addrs, ∀ o : HObj, ∀ b ∈ (st.to_dict σ).2.addrs,
      ((st.to_dict σ).1.set a o).get b = (st.to_dict σ).1.get b) ∧
    (∀ a ∈ (st.to_dict σ).2.addrs, ∀ o : HObj, ∀ b ∈ st.addrs,
      ((st.to_dict σ).1.set a o).get b = (st.to_dict σ).1.get b) ∧
    ((st.to_dict σ).1.get (st.to_dict σ).2.requirements_data =
      some ((σ.get st.requirements_data).getD (.dict []))) ∧
    ((st.to_dict σ).1.get (st.to_dict σ).2.plan_data =
      some ((σ.get st.plan_data).getD (.dict []))) ∧
    ((st.to_dict σ).1.get (st.to_dict σ).2.implementation_data =
      some ((σ.get st.implementation_data).getD (.dict []))) ∧
    ((st.to_dict σ).1.get (st.to_dict σ).2.errors =
      some ((σ.get st.errors).getD (.list []))) := by
  have hreq : st.requirements_data < σ.next := hst _ (by simp [WorkflowStateRef.addrs])
  have hplan : st.plan_data < σ.next := hst _ (by simp [WorkflowStateRef.addrs])
  have himpl : st.implementation_data < σ.next := hst _ (by simp [WorkflowStateRef.addrs])
  have herr : st.errors < σ.next := hst _ (by simp [WorkflowStateRef.addrs])
  have esnap : (st.to_dict σ).2.addrs = [σ.next, σ.next + 1, σ.next + 2, σ.next + 3] := rfl
  have w1 := Store.alloc_wf σ ((σ.get st.requirements_data).getD (.dict [])) hwf
  have w2 := Store.alloc_wf _ ((σ.get st.plan_data).getD (.dict [])) w1
  have w3 := Store.alloc_wf _ ((σ.get st.implementation_data).getD (.dict [])) w2
  refine ⟨by simp [get_workflow_status, hfind], ?_, ?_, ?_, ?_, ?_, ?_, ?_⟩
  · intro a ha hmem
    rw [esnap] at ha
    simp only [List.mem_cons, List.not_mem_nil, or_false] at ha
    simp only [WorkflowStateRef.addrs, List.mem_cons, List.not_mem_nil, or_false] at hmem
    rcases hmem with h | h | h | h <;> rcases ha with h' | h' | h' | h' <;> omega
  · intro a ha o b hb
    have ha' : a < σ.next := hst a ha
    rw [esnap] at hb
    simp only [List.mem_cons, List.not_mem_nil, or_false] at hb
    exact Store.get_set_ne _ a b o (by rcases hb with h' | h' | h' | h' <;> omega)
  · intro a ha o b hb
    rw [esnap] at ha
    simp only [List.mem_cons, List.not_mem_nil, or_false] at ha
    have hb' : b < σ.next := hst b hb
    exact Store.get_set_ne _ a b o (by rcases ha with h' | h' | h' | h' <;> omega)
  · show ((((σ.alloc _).1.alloc _).1.alloc _).1.alloc _).1.get σ.next = _
    rw [Store.get_alloc_lt _ _ _ (by show σ.next ≠ σ.next + 3; omega),
      Store.get_alloc_lt _ _ _ (by show σ.next ≠ σ.next + 2; omega),
      Store.get_alloc_lt _ _ _ (by show σ.next ≠ σ.next + 1; omega)]
    exact Store.get_alloc_self σ _ hwf
  · show ((((σ.alloc _).1.alloc _).1.alloc _).1.alloc _).1.get (σ.next + 1) = _
    rw [Store.get_alloc_lt _ _ _ (by show σ.next + 1 ≠ σ.next + 3; omega),
      Store.get_alloc_lt _ _ _ (by show σ.next + 1 ≠ σ.next + 2; omega)]
    exact Store.get_alloc_self _ _ w1
  · show ((((σ.alloc _).1.alloc _).1.alloc _).1.alloc _).1.get (σ.next + 2) = _
    rw [Store.get_alloc_lt _ _ _ (by show σ.next + 2 ≠ σ.next + 3; omega)]
    exact Store.get_alloc_self _ _ w2
  · show ((((σ.alloc _).1.alloc _).1.alloc _).1.alloc _).1.get (σ.next + 3) = _
    exact Store.get_alloc_self _ _ w3

/-- C8 witness: on a concrete store, mutating the stored record's error
list is invisible through the snapshot returned by
`get_workflow_status`. -/
theorem snapshot_is_deep_copy_witness :
    get_workflow_status storeW regW "wf-8" = some (stateRefW.to_dict storeW) ∧
    ((stateRefW.to_dict storeW).1.set stateRefW.errors (.list ["oops", "mutated"])).get
        (stateRefW.to_dict storeW).2.errors =
      (stateRefW.to_dict storeW).1.get (stateRefW.to_dict storeW).2.errors := by
  refine ⟨(snapshot_is_deep_copy storeW regW "wf-8" "wf-8" stateRefW rfl (by decide)
      (by decide)).1, ?_⟩
  exact (snapshot_is_deep_copy storeW regW "wf-8" "wf-8" stateRefW rfl (by decide)
    (by decide)).2.2.1 stateRefW.errors (by decide) (.list ["oops", "mutated"])
    (stateRefW.to_dict storeW).2.errors (by decide)

end Spec2Proof
